import Mathlib

/-!
MailMon, `secrets.h`.

A verification development for the configuration header `src/secrets.h` of
MailMon.  The header is a 24-line text of preprocessor directives, comments and
C++ declarations.  It is embedded here line by line, together with the part of
the C preprocessor that decides which of its declarations reach the compiler
(conditional groups, `#define`, skipped groups), and the part of the C++ type
system that decides whether a declared variable can be assigned to.
-/

namespace MailMon

/-! ## C++ declarations -/

/-- The C++ types that occur in the header.  The Boolean of `char`, `ptr` and
`named` is the `const` qualifier of that level of the type. -/
inductive CType where
  | void
  | char (isConst : Bool)
  | named (isConst : Bool) (name : String)
  | ptr (isConst : Bool) (pointee : CType)
  | ref (target : CType)
  deriving DecidableEq, Repr

/-- The type written `const char*` : a pointer, itself not `const`,
to `const char`. -/
def constCharPtr : CType := .ptr false (.char true)

/-- The type written `const String&` : a reference to `const String`. -/
def constStringRef : CType := .ref (.named true "String")

/-- A declaration at namespace scope: a variable with a string-literal
initialiser, or a function prototype. -/
inductive Decl where
  | var (ty : CType) (name : String) (init : String)
  | proto (ret : CType) (name : String) (params : List (CType × String))
  deriving DecidableEq, Repr

/-- The identifier a declaration introduces. -/
def Decl.name : Decl → String
  | .var _ n _ => n
  | .proto _ n _ => n

/-! ## Lines of a header -/

/-- One physical line of a header file. -/
inductive Line where
  /-- A line `#ifndef M`. -/
  | ifndef (m : String)
  /-- A line `#ifdef M`. -/
  | ifdef (m : String)
  /-- A line `#define M` (object-like, empty replacement). -/
  | define (m : String)
  /-- A line `#endif`. -/
  | endif
  /-- A line `// #define M` : a definition that has been commented out. -/
  | commentedDefine (m : String)
  /-- A line `// decl` : a declaration that has been commented out. -/
  | commentedDecl (d : Decl)
  /-- A line holding only a comment in prose. -/
  | comment
  /-- An empty line. -/
  | blank
  /-- A line holding one declaration. -/
  | decl (d : Decl)
  deriving DecidableEq, Repr

/-! ## The header, line by line -/

/-- Line 8: `const char* WIFI_SSID = "YOUR_WIFI_NAME";` -/
def WIFI_SSID : Decl := .var constCharPtr "WIFI_SSID" "YOUR_WIFI_NAME"

/-- Line 9: `const char* WIFI_PASS = "YOUR_WIFI_PASSWORD";` -/
def WIFI_PASS : Decl := .var constCharPtr "WIFI_PASS" "YOUR_WIFI_PASSWORD"

/-- Line 13: `const char* PUSHOVER_TOKEN = "YOUR_APP_TOKEN";` -/
def PUSHOVER_TOKEN : Decl := .var constCharPtr "PUSHOVER_TOKEN" "YOUR_APP_TOKEN"

/-- Line 14: `const char* PUSHOVER_USER  = "YOUR_USER_KEY";` -/
def PUSHOVER_USER : Decl := .var constCharPtr "PUSHOVER_USER" "YOUR_USER_KEY"

/-- Line 15: `void sendPushover(const String& message);` -/
def sendPushover : Decl := .proto .void "sendPushover" [(constStringRef, "message")]

/-- Line 20: `const char* NTFY_SERVER = "ntfy.sh";` -/
def NTFY_SERVER : Decl := .var constCharPtr "NTFY_SERVER" "ntfy.sh"

/-- Line 21: `const char* NTFY_TOPIC  = "your_unique_topic_name";` -/
def NTFY_TOPIC : Decl := .var constCharPtr "NTFY_TOPIC" "your_unique_topic_name"

/-- Line 22, inside a comment: `const char* NTFY_TOKEN = "tk_your_token";` -/
def NTFY_TOKEN : Decl := .var constCharPtr "NTFY_TOKEN" "tk_your_token"

/-- Line 23: `void sendNtfy(const String& message);` -/
def sendNtfy : Decl := .proto .void "sendNtfy" [(constStringRef, "message")]

/-- The file `src/secrets.h` as shipped, its 24 lines in order. -/
def secrets_h : List Line :=
  [ Line.ifndef "SECRETS_H"             --  1  #ifndef SECRETS_H
  , Line.define "SECRETS_H"             --  2  #define SECRETS_H
  , Line.comment                        --  3  // Choose ONE notification service
  , Line.define "USE_PUSHOVER"          --  4  #define USE_PUSHOVER
  , Line.commentedDefine "USE_NTFY"     --  5  // #define USE_NTFY
  , Line.blank                          --  6
  , Line.comment                        --  7  // Wi-Fi
  , Line.decl WIFI_SSID                 --  8
  , Line.decl WIFI_PASS                 --  9
  , Line.blank                          -- 10
  , Line.comment                        -- 11  // Pushover (...)
  , Line.ifdef "USE_PUSHOVER"           -- 12  #ifdef USE_PUSHOVER
  , Line.decl PUSHOVER_TOKEN            -- 13
  , Line.decl PUSHOVER_USER             -- 14
  , Line.decl sendPushover              -- 15
  , Line.endif                          -- 16  #endif
  , Line.blank                          -- 17
  , Line.comment                        -- 18  // Ntfy (...)
  , Line.ifdef "USE_NTFY"               -- 19  #ifdef USE_NTFY
  , Line.decl NTFY_SERVER               -- 20
  , Line.decl NTFY_TOPIC                -- 21
  , Line.commentedDecl NTFY_TOKEN       -- 22  // const char* NTFY_TOKEN = ...;  // Uncomment ...
  , Line.decl sendNtfy                  -- 23
  , Line.endif                          -- 24  #endif
  ]

/-! ## Choosing the selector macros

The deployer selects a backend by editing lines 4 and 5: a selector macro is
defined when its `#define` line is live and not defined when that line is
commented out. -/

/-- The two selector macros. -/
def selectors : List String := ["USE_PUSHOVER", "USE_NTFY"]

/-- A setting of the selector macros: for each, whether it is defined. -/
structure Setting where
  usePushover : Bool
  useNtfy : Bool
  deriving DecidableEq, Repr, Fintype

/-- Whether a setting defines the given macro. -/
def Setting.defines (s : Setting) (m : String) : Bool :=
  (m == "USE_PUSHOVER" && s.usePushover) || (m == "USE_NTFY" && s.useNtfy)

/-- Rewrite one line for a setting: the `#define` line of a selector macro, live
or commented out, becomes live exactly when the setting defines the macro.
Every other line is left as it is. -/
def configureLine (s : Setting) : Line → Line
  | .define m =>
      if selectors.contains m then
        (if s.defines m then .define m else .commentedDefine m)
      else .define m
  | .commentedDefine m =>
      if selectors.contains m then
        (if s.defines m then .define m else .commentedDefine m)
      else .commentedDefine m
  | l => l

/-- The header edited to a setting of the selector macros. -/
def configure (s : Setting) (hdr : List Line) : List Line :=
  hdr.map (configureLine s)

/-- The setting the shipped header has: line 4 live, line 5 commented out. -/
def shipped : Setting := { usePushover := true, useNtfy := false }

/-! ## The preprocessor -/

/-- The state of the preprocessor inside one file. -/
structure PPState where
  /-- The macros defined so far. -/
  macros : List String
  /-- The open conditional groups, innermost first: `true` for a group whose
  lines are processed, `false` for a group that is skipped. -/
  conds : List Bool
  /-- The declarations passed on to the compiler so far, in order. -/
  out : List Decl
  /-- Whether an `#endif` was met with no conditional group open. -/
  strayEndif : Bool
  deriving DecidableEq, Repr

/-- A line is processed when every open conditional group is one that is
processed. -/
def PPState.live (st : PPState) : Bool := st.conds.all id

/-- Process one line. -/
def step (st : PPState) : Line → PPState
  | .ifndef m => { st with conds := (st.live && !st.macros.contains m) :: st.conds }
  | .ifdef m => { st with conds := (st.live && st.macros.contains m) :: st.conds }
  | .endif =>
      match st.conds with
      | [] => { st with strayEndif := true }
      | _ :: rest => { st with conds := rest }
  | .define m => if st.live then { st with macros := m :: st.macros } else st
  | .decl d => if st.live then { st with out := st.out ++ [d] } else st
  | .commentedDefine _ => st
  | .commentedDecl _ => st
  | .comment => st
  | .blank => st

/-- Process the lines of a file from a given state. -/
def run (st : PPState) (ls : List Line) : PPState := ls.foldl step st

/-- What a translation unit has accumulated: the macros defined, the
declarations seen by the compiler, the number of conditional groups that
files left open at their end, and whether a stray `#endif` was met. -/
structure TransUnit where
  macros : List String
  decls : List Decl
  unterminated : Nat
  strayEndif : Bool
  deriving DecidableEq, Repr

/-- The translation unit before anything is included. -/
def TransUnit.empty : TransUnit :=
  { macros := [], decls := [], unterminated := 0, strayEndif := false }

/-- The effect of `#include` of a file: its lines are processed with the macros
defined so far and no conditional group open; conditional groups do not extend
past the end of the file, so groups still open there are counted as
unterminated and closed. -/
def includeFile (u : TransUnit) (hdr : List Line) : TransUnit :=
  let st := run { macros := u.macros, conds := [], out := [], strayEndif := false } hdr
  { macros := st.macros
  , decls := u.decls ++ st.out
  , unterminated := u.unterminated + st.conds.length
  , strayEndif := u.strayEndif || st.strayEndif }

/-- The declarations visible after including the header once, edited to the
given setting, in a translation unit that has defined nothing before. -/
def visible (s : Setting) : List Decl :=
  (includeFile TransUnit.empty (configure s secrets_h)).decls

/-- Whether an identifier is declared among the given declarations. -/
def declared (ds : List Decl) (n : String) : Bool := ds.any (fun d => d.name == n)

/-- The string a configuration variable is initialised with, when the variable
is among the given declarations. -/
def valueOf (ds : List Decl) (n : String) : Option String :=
  ds.findSome? fun d =>
    match d with
    | .var _ m v => if m == n then some v else none
    | .proto _ _ _ => none

/-! ## The two backends -/

/-- The two notification backends. -/
inductive Backend where
  | pushover
  | ntfy
  deriving DecidableEq, Repr

/-- The declarations of a backend: lines 13 to 15 for Pushover, lines 20, 21
and 23 for Ntfy. -/
def Backend.block : Backend → List Decl
  | .pushover => [PUSHOVER_TOKEN, PUSHOVER_USER, sendPushover]
  | .ntfy => [NTFY_SERVER, NTFY_TOPIC, sendNtfy]

/-- A backend is compiled in when every declaration of its block is visible. -/
def compiledIn (s : Setting) (b : Backend) : Bool :=
  b.block.all fun d => (visible s).contains d

/-- A backend is absent when no declaration of its block is visible. -/
def absent (s : Setting) (b : Backend) : Bool :=
  b.block.all fun d => !(visible s).contains d

/-- The backends compiled in, Pushover first. -/
def backends (s : Setting) : List Backend :=
  [Backend.pushover, Backend.ntfy].filter (compiledIn s)

/-- Exactly one of the two backends is compiled in and the other is absent. -/
def exactlyOneBackend (s : Setting) : Bool :=
  (compiledIn s .pushover && absent s .ntfy) || (compiledIn s .ntfy && absent s .pushover)

/-- Change one flag and nothing else: the macro `m` becomes defined if it was
not, and not defined if it was.  A name that is not a selector macro changes
nothing. -/
def Setting.flip (s : Setting) (m : String) : Setting :=
  if m == "USE_PUSHOVER" then { s with usePushover := !s.usePushover }
  else if m == "USE_NTFY" then { s with useNtfy := !s.useNtfy }
  else s

/-! ## Assignment to a declared variable -/

/-- Whether a value of the type can be the left side of an assignment: the type
is an object type that is not `const` at its outermost level.  A reference is
assigned through to what it refers to. -/
def CType.assignable : CType → Bool
  | .void => false
  | .char c => !c
  | .named c _ => !c
  | .ptr c _ => !c
  | .ref t => t.assignable

/-- Whether what a pointer points to can be written through the pointer. -/
def CType.writableThrough : CType → Bool
  | .ptr _ p => p.assignable
  | _ => false

/-- The type of a declared variable; a prototype declares no variable. -/
def Decl.varType : Decl → Option CType
  | .var ty _ _ => some ty
  | .proto _ _ _ => none

/-- The variables of a program with the string each one refers to. -/
abbrev Store := List (String × CType × String)

/-- The store after the initialisers of the given declarations have run. -/
def initStore (ds : List Decl) : Store :=
  ds.filterMap fun d =>
    match d with
    | .var ty n v => some (n, ty, v)
    | .proto _ _ _ => none

/-- The string a variable refers to. -/
def Store.lookup (st : Store) (n : String) : Option String :=
  st.findSome? fun e => if e.1 == n then some e.2.2 else none

/-- The statement `n = v;` : accepted by the compiler exactly when `n` is a
declared variable of assignable type, and then `n` refers to `v`. -/
def assign (st : Store) (n : String) (v : String) : Option Store :=
  if st.any (fun e => e.1 == n && e.2.1.assignable) then
    some (st.map fun e => if e.1 == n then (e.1, e.2.1, v) else e)
  else none

/-- The six configuration values of the header. -/
def configValues : List Decl :=
  [WIFI_SSID, WIFI_PASS, PUSHOVER_TOKEN, PUSHOVER_USER, NTFY_SERVER, NTFY_TOPIC]

/-! ## Nesting of conditional directives -/

/-- The change a line makes to the conditional nesting depth. -/
def depthChange : Line → Int
  | .ifndef _ => 1
  | .ifdef _ => 1
  | .endif => -1
  | _ => 0

/-- The nesting depth after each line of a file, from depth `d` before it. -/
def depths (d : Int) : List Line → List Int
  | [] => []
  | l :: ls => (d + depthChange l) :: depths (d + depthChange l) ls

/-- The nesting depth at the end of a file. -/
def finalDepth (ls : List Line) : Int := (ls.map depthChange).sum

/-- The conditionals of a file are balanced: the depth is never negative and is
zero at the end. -/
def balanced (ls : List Line) : Bool :=
  (depths 0 ls).all (fun d => decide (0 ≤ d)) && decide (finalDepth ls = 0)

/-- Scan for the `#endif` that closes a group: `k` further groups are open
inside it and `i` is the number of the line at the head of the list. -/
def closerFrom (k : Nat) (i : Nat) : List Line → Option Nat
  | [] => none
  | .endif :: ls =>
      match k with
      | 0 => some i
      | k + 1 => closerFrom k (i + 1) ls
  | .ifdef _ :: ls => closerFrom (k + 1) (i + 1) ls
  | .ifndef _ :: ls => closerFrom (k + 1) (i + 1) ls
  | _ :: ls => closerFrom k (i + 1) ls

/-- The line number (from 1) of the `#endif` that closes the conditional opened
on line `i`, if there is one. -/
def closer (ls : List Line) (i : Nat) : Option Nat :=
  closerFrom 0 (i + 1) (ls.drop i)

/-- A bare hostname: not empty, and made only of letters, digits, hyphens and
dots, so that it holds no scheme separator `:` and no path separator `/`. -/
def isBareHostname (v : String) : Bool :=
  !v.isEmpty && v.toList.all fun c => c.isAlphanum || c == '.' || c == '-'

/-! ## Helper facts -/

/-- Editing the shipped header to the setting it already has changes nothing. -/
theorem configure_shipped : configure shipped secrets_h = secrets_h := by decide

/-- The declarations visible in each setting: the two Wi-Fi values, then the
Pushover block when `USE_PUSHOVER` is defined, then the Ntfy block when
`USE_NTFY` is defined. -/
theorem visible_eq (s : Setting) :
    visible s = [WIFI_SSID, WIFI_PASS]
      ++ (if s.usePushover then Backend.block .pushover else [])
      ++ (if s.useNtfy then Backend.block .ntfy else []) := by
  revert s; decide

/-- Processing a file is processing its first line, then the rest. -/
theorem run_cons (st : PPState) (l : Line) (ls : List Line) :
    run st (l :: ls) = run (step st l) ls := rfl

/-- Inside a skipped group no line is processed. -/
theorem live_of_skipped (st : PPState) (pre rest : List Bool)
    (hc : st.conds = pre ++ false :: rest) : st.live = false := by
  simp [PPState.live, hc]

/-- Lines read inside a skipped group that is not closed within them define no
macro and pass on no declaration. -/
theorem run_skipped (ls : List Line) :
    ∀ (k i : Nat) (st : PPState) (pre rest : List Bool),
      st.conds = pre ++ false :: rest → pre.length = k → closerFrom k i ls = none →
      (run st ls).macros = st.macros ∧ (run st ls).out = st.out := by
  induction ls with
  | nil => intro k i st pre rest _ _ _; exact ⟨rfl, rfl⟩
  | cons l ls ih =>
    intro k i st pre rest hc hk hn
    have hlive : st.live = false := live_of_skipped st pre rest hc
    rw [run_cons]
    cases l with
    | endif =>
      cases pre with
      | nil =>
        subst hk
        simp [closerFrom] at hn
      | cons b pre1 =>
        subst hk
        simp only [closerFrom, List.length_cons] at hn
        have h := ih pre1.length (i + 1) (step st .endif) pre1 rest
          (by simp [step, hc]) rfl hn
        simpa [step, hc] using h
    | ifdef m =>
      simp only [closerFrom] at hn
      have h := ih (k + 1) (i + 1) (step st (.ifdef m)) (false :: pre) rest
        (by simp [step, hc, hlive]) (by simp [hk]) hn
      simpa [step] using h
    | ifndef m =>
      simp only [closerFrom] at hn
      have h := ih (k + 1) (i + 1) (step st (.ifndef m)) (false :: pre) rest
        (by simp [step, hc, hlive]) (by simp [hk]) hn
      simpa [step] using h
    | define m =>
      simp only [closerFrom] at hn
      have h := ih k (i + 1) (step st (.define m)) pre rest
        (by simp [step, hc, hlive]) hk hn
      simpa [step, hlive] using h
    | decl d =>
      simp only [closerFrom] at hn
      have h := ih k (i + 1) (step st (.decl d)) pre rest
        (by simp [step, hc, hlive]) hk hn
      simpa [step, hlive] using h
    | commentedDefine m =>
      simp only [closerFrom] at hn
      exact ih k (i + 1) st pre rest hc hk hn
    | commentedDecl d =>
      simp only [closerFrom] at hn
      exact ih k (i + 1) st pre rest hc hk hn
    | comment =>
      simp only [closerFrom] at hn
      exact ih k (i + 1) st pre rest hc hk hn
    | blank =>
      simp only [closerFrom] at hn
      exact ih k (i + 1) st pre rest hc hk hn

/-- No line removes a macro. -/
theorem step_macros_mono (st : PPState) (l : Line) (m : String)
    (h : st.macros.contains m = true) : (step st l).macros.contains m = true := by
  cases l with
  | endif => simp only [step]; split <;> exact h
  | define x =>
    simp only [step]
    split
    · simp only [List.contains_cons, h, Bool.or_true]
    · exact h
  | decl d => simp only [step]; split <;> exact h
  | _ => exact h

/-- No sequence of lines removes a macro. -/
theorem run_macros_mono (ls : List Line) :
    ∀ (st : PPState) (m : String), st.macros.contains m = true →
      (run st ls).macros.contains m = true := by
  induction ls with
  | nil => intro st m h; exact h
  | cons l ls ih =>
    intro st m h
    rw [run_cons]
    exact ih _ m (step_macros_mono st l m h)

/-- In every setting the header opens with its include guard, lines 1 and 2, and
no later line closes the group that line 1 opens. -/
theorem header_shape (s : Setting) :
    ∃ tl, configure s secrets_h = Line.ifndef "SECRETS_H" :: Line.define "SECRETS_H" :: tl
      ∧ closerFrom 0 2 (.define "SECRETS_H" :: tl) = none :=
  ⟨(configure s secrets_h).drop 2, by revert s; decide, by revert s; decide⟩

/-- Included where `SECRETS_H` is already defined, the header adds no
declaration and defines no macro. -/
theorem include_guarded (s : Setting) (u : TransUnit)
    (h : u.macros.contains "SECRETS_H" = true) :
    (includeFile u (configure s secrets_h)).decls = u.decls
    ∧ (includeFile u (configure s secrets_h)).macros = u.macros := by
  obtain ⟨tl, htl, hn⟩ := header_shape s
  have hmem : "SECRETS_H" ∈ u.macros := by simpa using h
  rw [htl]
  simp only [includeFile, run_cons]
  have hs := run_skipped (.define "SECRETS_H" :: tl) 0 2
    (step { macros := u.macros, conds := [], out := [], strayEndif := false }
      ( Line.ifndef "SECRETS_H")) [] []
    (by simp [step, PPState.live, hmem]) rfl hn
  rw [run_cons] at hs
  rw [hs.1, hs.2]
  simp [step]

/-- After the header has been included, `SECRETS_H` is defined. -/
theorem header_defines_guard (s : Setting) (u : TransUnit) :
    (includeFile u (configure s secrets_h)).macros.contains "SECRETS_H" = true := by
  by_cases h : u.macros.contains "SECRETS_H" = true
  · rw [(include_guarded s u h).2]; exact h
  · obtain ⟨tl, htl, -⟩ := header_shape s
    rw [htl]
    simp only [includeFile, run_cons]
    have hmem : "SECRETS_H" ∉ u.macros := by simpa using h
    apply run_macros_mono
    simp [step, PPState.live, hmem]

/-! ## The claims -/

/-- C1, counterexample: with both selector macros defined both backends are
compiled in, and with neither defined both are absent; in neither setting is
exactly one backend compiled in. -/
theorem C1_counterexample :
    exactlyOneBackend { usePushover := true, useNtfy := true } = false
    ∧ compiledIn { usePushover := true, useNtfy := true } .pushover = true
    ∧ compiledIn { usePushover := true, useNtfy := true } .ntfy = true
    ∧ exactlyOneBackend { usePushover := false, useNtfy := false } = false
    ∧ absent { usePushover := false, useNtfy := false } .pushover = true
    ∧ absent { usePushover := false, useNtfy := false } .ntfy = true := by
  decide

/-- C1, amended: in every setting of the selector macros each backend block is
visible as a whole exactly when its own macro is defined and wholly absent
otherwise, so exactly one backend is compiled in exactly when exactly one of
`USE_PUSHOVER` and `USE_NTFY` is defined. -/
theorem C1_backend_follows_its_flag (s : Setting) :
    compiledIn s .pushover = s.usePushover
    ∧ absent s .pushover = !s.usePushover
    ∧ compiledIn s .ntfy = s.useNtfy
    ∧ absent s .ntfy = !s.useNtfy
    ∧ exactlyOneBackend s = xor s.usePushover s.useNtfy := by
  revert s; decide

/-- C2: the header exactly as shipped declares `PUSHOVER_TOKEN`,
`PUSHOVER_USER` and `sendPushover`, and declares none of `NTFY_SERVER`,
`NTFY_TOPIC` and `sendNtfy`. -/
theorem C2_shipped_selects_pushover :
    (includeFile TransUnit.empty secrets_h).decls
        = [WIFI_SSID, WIFI_PASS, PUSHOVER_TOKEN, PUSHOVER_USER, sendPushover]
    ∧ (includeFile TransUnit.empty secrets_h).macros.contains "USE_PUSHOVER" = true
    ∧ (includeFile TransUnit.empty secrets_h).macros.contains "USE_NTFY" = false
    ∧ declared (includeFile TransUnit.empty secrets_h).decls "PUSHOVER_TOKEN" = true
    ∧ declared (includeFile TransUnit.empty secrets_h).decls "PUSHOVER_USER" = true
    ∧ declared (includeFile TransUnit.empty secrets_h).decls "sendPushover" = true
    ∧ declared (includeFile TransUnit.empty secrets_h).decls "NTFY_SERVER" = false
    ∧ declared (includeFile TransUnit.empty secrets_h).decls "NTFY_TOPIC" = false
    ∧ declared (includeFile TransUnit.empty secrets_h).decls "sendNtfy" = false
    ∧ backends shipped = [Backend.pushover] := by
  decide

/-- C3, counterexample: the shipped header has Pushover alone compiled in, and
there is no single flag whose change alone leaves Ntfy alone compiled in. -/
theorem C3_counterexample :
    backends shipped = [Backend.pushover]
    ∧ ¬ ∃ m : String, backends (shipped.flip m) = [Backend.ntfy] := by
  refine ⟨by decide, ?_⟩
  rintro ⟨m, h⟩
  unfold Setting.flip at h
  split at h
  · revert h; decide
  · split at h
    · revert h; decide
    · revert h; decide

/-- C3, amended: the choice is made by two independent flags.  From a setting
with Pushover alone compiled in, changing `USE_PUSHOVER` alone leaves no
backend, changing `USE_NTFY` alone leaves both, changing both leaves Ntfy
alone, and changing both back restores the setting. -/
theorem C3_two_independent_flags (s : Setting) (h : backends s = [Backend.pushover]) :
    backends (s.flip "USE_PUSHOVER") = []
    ∧ backends (s.flip "USE_NTFY") = [Backend.pushover, Backend.ntfy]
    ∧ backends ((s.flip "USE_PUSHOVER").flip "USE_NTFY") = [Backend.ntfy]
    ∧ backends ((s.flip "USE_NTFY").flip "USE_PUSHOVER") = [Backend.ntfy]
    ∧ (((s.flip "USE_PUSHOVER").flip "USE_NTFY").flip "USE_NTFY").flip "USE_PUSHOVER" = s := by
  revert s; decide

/-- C3, witness: the shipped setting has Pushover alone compiled in. -/
theorem C3_two_independent_flags_witness :
    backends shipped = [Backend.pushover]
    ∧ backends ((shipped.flip "USE_PUSHOVER").flip "USE_NTFY") = [Backend.ntfy] :=
  ⟨by decide, (C3_two_independent_flags shipped (by decide)).2.2.1⟩

/-- C4: in every setting `sendPushover` is declared exactly when
`PUSHOVER_TOKEN` and `PUSHOVER_USER` are both defined, and `sendNtfy` is
declared exactly when `NTFY_SERVER` and `NTFY_TOPIC` are both defined. -/
theorem C4_send_iff_configured (s : Setting) :
    (declared (visible s) "sendPushover" = true ↔
        declared (visible s) "PUSHOVER_TOKEN" = true ∧ declared (visible s) "PUSHOVER_USER" = true)
    ∧ (declared (visible s) "sendNtfy" = true ↔
        declared (visible s) "NTFY_SERVER" = true ∧ declared (visible s) "NTFY_TOPIC" = true) := by
  revert s; decide

/-- C5: whenever `USE_NTFY` is defined, whatever `USE_PUSHOVER` is,
`NTFY_SERVER` is defined and its value is `ntfy.sh`, a bare hostname: no
scheme separator and no path separator occur in it. -/
theorem C5_ntfy_server_default (s : Setting) (h : s.useNtfy = true) :
    declared (visible s) "NTFY_SERVER" = true
    ∧ valueOf (visible s) "NTFY_SERVER" = some "ntfy.sh"
    ∧ (valueOf (visible s) "NTFY_SERVER").map isBareHostname = some true
    ∧ (valueOf (visible s) "NTFY_SERVER").map (fun v => v.toList.contains ':') = some false
    ∧ (valueOf (visible s) "NTFY_SERVER").map (fun v => v.toList.contains '/') = some false := by
  revert s; decide

/-- C5, witness: the setting with `USE_NTFY` alone defined. -/
theorem C5_ntfy_server_default_witness :
    valueOf (visible { usePushover := false, useNtfy := true }) "NTFY_SERVER" = some "ntfy.sh" :=
  (C5_ntfy_server_default { usePushover := false, useNtfy := true } rfl).2.1

/-- C6: in every setting `WIFI_SSID` and `WIFI_PASS` are both defined, and
their values are the same in any two settings. -/
theorem C6_wifi_independent_of_backend (s t : Setting) :
    valueOf (visible s) "WIFI_SSID" = some "YOUR_WIFI_NAME"
    ∧ valueOf (visible s) "WIFI_PASS" = some "YOUR_WIFI_PASSWORD"
    ∧ valueOf (visible s) "WIFI_SSID" = valueOf (visible t) "WIFI_SSID"
    ∧ valueOf (visible s) "WIFI_PASS" = valueOf (visible t) "WIFI_PASS" := by
  revert s t; decide

/-- C7, counterexample: `WIFI_SSID` has the type `const char*`, which is
assignable; after the initialisers of the shipped header the assignment
`WIFI_SSID = "OTHER_NETWORK";` is accepted, and the name then refers to a
different string. -/
theorem C7_counterexample :
    WIFI_SSID.varType = some constCharPtr
    ∧ constCharPtr.assignable = true
    ∧ (initStore (visible shipped)).lookup "WIFI_SSID" = some "YOUR_WIFI_NAME"
    ∧ ((assign (initStore (visible shipped)) "WIFI_SSID" "OTHER_NETWORK").bind
          fun st => st.lookup "WIFI_SSID") = some "OTHER_NETWORK" := by
  decide

/-- C7, amended: every configuration value of the header is declared
`const char*`, a pointer that is not itself `const` to `const char`: in every
setting, the characters a visible value points to cannot be written through
it, while the variable itself is assignable and an assignment to it is
accepted and makes the name refer to a different string: before it the name
refers to its initialiser, which is not the string assigned, and after it the
name refers to the string assigned.  With both selector macros defined the
variables of the store are the six configuration values. -/
theorem C7_pointer_to_const_chars (s : Setting) :
    configValues.all (fun d => d.varType == some constCharPtr) = true
    ∧ (visible { usePushover := true, useNtfy := true }).filter
          (fun d => d.varType.isSome) = configValues
    ∧ ((visible s).filterMap Decl.varType).all
          (fun ty => ty == constCharPtr && !ty.writableThrough && ty.assignable) = true
    ∧ (initStore (visible s)).all
          (fun e => (assign (initStore (visible s)) e.1 "OTHER").isSome) = true
    ∧ (initStore (visible s)).all
          (fun e =>
            (initStore (visible s)).lookup e.1 == some e.2.2
            && e.2.2 != "OTHER"
            && ((assign (initStore (visible s)) e.1 "OTHER").bind
                  fun st => st.lookup e.1) == some "OTHER"
            && ((assign (initStore (visible s)) e.1 "OTHER").bind
                  fun st => st.lookup e.1) != (initStore (visible s)).lookup e.1) = true
    ∧ (initStore (visible { usePushover := true, useNtfy := true })).map (fun e => e.1)
        = configValues.map Decl.name := by
  revert s; decide

/-- C8: in every setting no `NTFY_TOKEN` is defined, its declaration being
present only inside a comment, and defining `USE_NTFY` adds exactly
`NTFY_SERVER`, `NTFY_TOPIC` and the `sendNtfy` prototype to what is visible
without it. -/
theorem C8_ntfy_token_off_by_default (s : Setting) :
    declared (visible s) "NTFY_TOKEN" = false
    ∧ (configure s secrets_h).contains (Line.commentedDecl NTFY_TOKEN) = true
    ∧ (configure s secrets_h).contains (Line.decl NTFY_TOKEN) = false
    ∧ visible { s with useNtfy := true }
        = visible { s with useNtfy := false } ++ [NTFY_SERVER, NTFY_TOPIC, sendNtfy] := by
  revert s; decide

/-- C9, the header as it is: the `#ifdef` of line 12 is closed on line 16 and
the `#ifdef` of line 19 on line 24, the depth is never negative, but the
`#ifndef SECRETS_H` of line 1 has no `#endif`: the depth at the end of the file
is 1, and one conditional group is unterminated, in every setting. -/
theorem C9_include_guard_not_closed :
    balanced secrets_h = false
    ∧ finalDepth secrets_h = 1
    ∧ (depths 0 secrets_h).all (fun d => decide (0 ≤ d)) = true
    ∧ closer secrets_h 12 = some 16
    ∧ closer secrets_h 19 = some 24
    ∧ closer secrets_h 1 = none
    ∧ (includeFile TransUnit.empty secrets_h).unterminated = 1
    ∧ (includeFile TransUnit.empty secrets_h).strayEndif = false
    ∧ ∀ s : Setting, balanced (configure s secrets_h) = false := by
  decide

/-- C10: in every setting and in any translation unit, including the header a
second time adds no declaration and defines no macro: what is declared and
defined after two inclusions is what is after one. -/
theorem C10_inclusion_idempotent (s : Setting) (u : TransUnit) :
    (includeFile (includeFile u (configure s secrets_h)) (configure s secrets_h)).decls
        = (includeFile u (configure s secrets_h)).decls
    ∧ (includeFile (includeFile u (configure s secrets_h)) (configure s secrets_h)).macros
        = (includeFile u (configure s secrets_h)).macros :=
  include_guarded s _ (header_defines_guard s u)

end MailMon
